import Mathlib

/-!
Verification of the thinkube-cicd-monitor extension's pipeline-reconciliation,
transport-normalization and reconnecting-stream logic.

The development shallowly embeds the TypeScript sources:
* `src/models/Pipeline.ts` — the data model (enums and record shapes);
* the legacy `PipelineMonitor` (ConfigMap-backed reconciler): status
  computation, terminal-event handling, cache upserts, recent/metrics/analysis
  queries;
* `src/api/ControlHubAPI.ts` — payload normalization and `testConnection`;
* `src/api/EventStream.ts` and `src/api/WebSocketManager.ts` — the
  reconnect-scheduling state machines.

JavaScript `Map`/object insertion-order semantics are modelled by association
lists (`cacheSet`/`objSet` update in place, append when absent), JS truthiness
of optional numbers/strings by explicit helpers (`jsNumOr`, `jsStrOr`,
`jsOrInt`), and `Array.prototype.sort` (stable, by comparator) by the stable
`List.mergeSort`.  Timestamps and durations are `Int` (millisecond epoch
values; JS subtraction may go negative).  Free-form `details` JSON blobs are
not modelled: no examined operation reads them.
-/

/-- `PipelineStatus` from `src/models/Pipeline.ts`.  The legacy monitor's
`PipelineStatus.Success` member is identified with `Succeeded`. -/
inductive PipelineStatus where
  | Pending
  | Running
  | Succeeded
  | Failed
  | Cancelled
deriving DecidableEq, Repr

/-- `StageStatus` from `src/models/Pipeline.ts`. -/
inductive StageStatus where
  | Pending
  | Running
  | Succeeded
  | Failed
  | Skipped
deriving DecidableEq, Repr

/-- `EventType` from `src/models/Pipeline.ts`. -/
inductive EventType where
  | GIT_PUSH
  | WEBHOOK_RECEIVED
  | WORKFLOW_START
  | WORKFLOW_COMPLETE
  | WORKFLOW_FAILED
  | BUILD_START
  | BUILD_COMPLETE
  | BUILD_FAILED
  | BUILD_TIMEOUT
  | IMAGE_PUSH
  | IMAGE_PUSH_FAILED
  | HARBOR_WEBHOOK
  | UPDATER_CHECK
  | UPDATER_COMMIT
  | UPDATER_SKIP
  | ARGOCD_WEBHOOK
  | ARGOCD_SYNC
  | SYNC_FAILED
  | DEPLOY_START
  | DEPLOY_COMPLETE
  | DEPLOY_TIMEOUT
  | POD_CRASHLOOP
  | WEBHOOK_TIMEOUT
  | RATE_LIMIT_ERROR
  | GIT_CONFLICT
  | HEALTH_CHECK_FAILED
deriving DecidableEq, Repr

/-- The string value of each `EventType` member (the enum is string-valued in
the source; JS object keys built from event types use these strings). -/
def eventTypeStr : EventType → String
  | .GIT_PUSH => "GIT_PUSH"
  | .WEBHOOK_RECEIVED => "WEBHOOK_RECEIVED"
  | .WORKFLOW_START => "WORKFLOW_START"
  | .WORKFLOW_COMPLETE => "WORKFLOW_COMPLETE"
  | .WORKFLOW_FAILED => "WORKFLOW_FAILED"
  | .BUILD_START => "BUILD_START"
  | .BUILD_COMPLETE => "BUILD_COMPLETE"
  | .BUILD_FAILED => "BUILD_FAILED"
  | .BUILD_TIMEOUT => "BUILD_TIMEOUT"
  | .IMAGE_PUSH => "IMAGE_PUSH"
  | .IMAGE_PUSH_FAILED => "IMAGE_PUSH_FAILED"
  | .HARBOR_WEBHOOK => "HARBOR_WEBHOOK"
  | .UPDATER_CHECK => "UPDATER_CHECK"
  | .UPDATER_COMMIT => "UPDATER_COMMIT"
  | .UPDATER_SKIP => "UPDATER_SKIP"
  | .ARGOCD_WEBHOOK => "ARGOCD_WEBHOOK"
  | .ARGOCD_SYNC => "ARGOCD_SYNC"
  | .SYNC_FAILED => "SYNC_FAILED"
  | .DEPLOY_START => "DEPLOY_START"
  | .DEPLOY_COMPLETE => "DEPLOY_COMPLETE"
  | .DEPLOY_TIMEOUT => "DEPLOY_TIMEOUT"
  | .POD_CRASHLOOP => "POD_CRASHLOOP"
  | .WEBHOOK_TIMEOUT => "WEBHOOK_TIMEOUT"
  | .RATE_LIMIT_ERROR => "RATE_LIMIT_ERROR"
  | .GIT_CONFLICT => "GIT_CONFLICT"
  | .HEALTH_CHECK_FAILED => "HEALTH_CHECK_FAILED"

/-- Modelled from the spec: the legacy models file that declares `EventStatus`
(and the legacy event fields `status`/`error`/`duration` consumed by the
`PipelineMonitor`) is not in the source tree — only its consumer is.  The
spec speaks of events "carrying a failure status" and of success/pending
states, so the enum is modelled with those members; only `Failed` is ever
compared against in the monitor. -/
inductive EventStatus where
  | Pending
  | Success
  | Failed
deriving DecidableEq, Repr

/-- `PipelineTrigger` from `src/models/Pipeline.ts` (`type` is one of the
string literals `manual`/`git_push`/`scheduled`/`api`). -/
structure PipelineTrigger where
  type : String
  user : Option String := none
  branch : Option String := none
  commit : Option String := none
  message : Option String := none
deriving DecidableEq, Repr

/-- `PipelineEvent`: the new model's fields plus the legacy `status`, `error`
and `duration` fields read by the monitor (see `EventStatus`).  The free-form
`details` map is not modelled. -/
structure PipelineEvent where
  id : String
  pipelineId : String
  timestamp : Int
  eventType : EventType
  stageId : Option String := none
  status : Option EventStatus := none
  error : Option String := none
  duration : Option Int := none
deriving DecidableEq, Repr

/-- `PipelineStage` from `src/models/Pipeline.ts` (`details` not modelled). -/
structure PipelineStage where
  id : String
  stageName : String
  component : String
  status : StageStatus
  startedAt : Int
  completedAt : Option Int := none
  errorMessage : Option String := none
  duration : Option Int := none
deriving DecidableEq, Repr

/-- `Pipeline` from `src/models/Pipeline.ts`.  The legacy monitor constructs
pipelines without stages, so `stages` defaults to `[]`. -/
structure Pipeline where
  id : String
  appName : String
  startTime : Int
  endTime : Option Int := none
  status : PipelineStatus
  stages : List PipelineStage := []
  events : List PipelineEvent
  trigger : PipelineTrigger
  duration : Option Int := none
  stageCount : Option Nat := none
deriving DecidableEq, Repr

/-- JS `a || b` on optional numbers: `undefined` and `0` fall through. -/
def jsOrInt (a b : Option Int) : Option Int :=
  match a with
  | none => b
  | some v => if v = 0 then b else some v

/-- JS `a || d` producing a number: `undefined` and `0` yield the default. -/
def jsNumOr (a : Option Int) (d : Int) : Int :=
  match a with
  | none => d
  | some v => if v = 0 then d else v

/-- JS `a || d` producing a string: `undefined` and `""` yield the default. -/
def jsStrOr (a : Option String) (d : String) : String :=
  match a with
  | none => d
  | some s => if s = "" then d else s

/-- JS truthiness of an optional number (`p.duration` filters). -/
def jsTruthyInt (a : Option Int) : Bool :=
  match a with
  | none => false
  | some v => v != 0

/-! ## The pipeline cache (a JS `Map` keyed by pipeline id)

JS `Map.set` updates an existing key in place (keeping its position) and
appends new keys; iteration order is insertion order. -/

abbrev Cache := List (String × Pipeline)

/-- `Map.get`. -/
def cacheGet (c : Cache) (k : String) : Option Pipeline :=
  (c.find? (fun kv => kv.1 == k)).map (·.2)

/-- `Map.set`: in-place update of an existing key, append otherwise. -/
def cacheSet (c : Cache) (k : String) (p : Pipeline) : Cache :=
  if c.any (fun kv => kv.1 == k) then
    c.map (fun kv => if kv.1 == k then (k, p) else kv)
  else
    c ++ [(k, p)]

/-- Every stored pipeline's `id` equals its cache key (holds for every state
the monitor's two mutators build, since both key entries by `pipeline.id`). -/
def cacheIdsOk (c : Cache) : Prop := ∀ kv ∈ c, kv.2.id = kv.1

/-- The cache keys are pairwise distinct (a `Map` invariant). -/
def cacheKeysNodup (c : Cache) : Prop := (c.map (·.1)).Nodup

instance (c : Cache) : Decidable (cacheIdsOk c) := by
  unfold cacheIdsOk; infer_instance

instance (c : Cache) : Decidable (cacheKeysNodup c) := by
  unfold cacheKeysNodup; infer_instance

/-- The reconciler state: `PipelineMonitor.pipelineCache`. -/
structure PipelineMonitor where
  pipelineCache : Cache := []
deriving DecidableEq, Repr

/-- `PipelineMonitor.calculatePipelineStatus`: empty → Pending; any event with
failed status → Failed; last event `DEPLOY_COMPLETE` → Success; else
Running. -/
def calculatePipelineStatus (events : List PipelineEvent) : PipelineStatus :=
  match events.getLast? with
  | none => .Pending
  | some lastEvent =>
    if events.any (fun e => e.status == some EventStatus.Failed) then .Failed
    else if lastEvent.eventType == EventType.DEPLOY_COMPLETE then .Succeeded
    else .Running

/-- `PipelineMonitor.isTerminalEvent`. -/
def isTerminalEvent (eventType : EventType) : Bool :=
  [EventType.DEPLOY_COMPLETE, EventType.DEPLOY_TIMEOUT, EventType.WORKFLOW_FAILED,
   EventType.BUILD_FAILED, EventType.SYNC_FAILED].contains eventType

/-- The parsed `events.json` payload of a ConfigMap. -/
structure ConfigMapData where
  pipelineId : String
  appName : String
  startTime : Int
  events : List PipelineEvent := []
  trigger : Option PipelineTrigger := none
deriving DecidableEq, Repr

/-- `PipelineMonitor.updatePipelineFromConfigMap` (the snapshot-ingestion
path, after successful JSON parsing): rebuilds the pipeline from the payload,
computes its status, sets `endTime`/`duration` iff the last event is terminal,
and upserts the cache entry. -/
def updatePipelineFromConfigMap (m : PipelineMonitor) (data : ConfigMapData) :
    PipelineMonitor :=
  let base : Pipeline :=
    { id := data.pipelineId
      appName := data.appName
      startTime := data.startTime
      events := data.events
      status := calculatePipelineStatus data.events
      trigger := data.trigger.getD { type := "manual" } }
  let p :=
    match data.events.getLast? with
    | some lastEvent =>
      if isTerminalEvent lastEvent.eventType then
        { base with endTime := some lastEvent.timestamp
                    duration := some (lastEvent.timestamp - data.startTime) }
      else base
    | none => base
  { m with pipelineCache := cacheSet m.pipelineCache p.id p }

/-- `PipelineMonitor.addEvent` (event ingestion; the `getPipeline` lookup is
modelled by the cache path — events whose pipeline is absent are dropped).
Appends the event, recomputes the status, and — when the event type is
terminal — overwrites `endTime`/`duration` with this event's timestamp.
`applyEvent` is the in-place mutation of the located pipeline object. -/
def applyEvent (pipeline : Pipeline) (event : PipelineEvent) : Pipeline :=
  let events' := pipeline.events ++ [event]
  { pipeline with
    events := events'
    status := calculatePipelineStatus events'
    endTime := if isTerminalEvent event.eventType then some event.timestamp
               else pipeline.endTime
    duration := if isTerminalEvent event.eventType then
                  some (event.timestamp - pipeline.startTime)
                else pipeline.duration }

def addEvent (m : PipelineMonitor) (event : PipelineEvent) : PipelineMonitor :=
  match cacheGet m.pipelineCache event.pipelineId with
  | none => m
  | some pipeline =>
    let pipeline' := applyEvent pipeline event
    { m with pipelineCache := cacheSet m.pipelineCache pipeline'.id pipeline' }

/-- The `getRecentPipelines` sort comparator `(a, b) => b.startTime - a.startTime`
(start time descending; ties compare equal, so the stable sort keeps them in
cache order). -/
def startDescLe (a b : Pipeline) : Bool := b.startTime ≤ a.startTime

/-- The cached pipelines in insertion order (`Array.from(cache.values())`). -/
def cacheValues (m : PipelineMonitor) : List Pipeline :=
  m.pipelineCache.map (·.2)

/-- `PipelineMonitor.getRecentPipelines` (its pure projection: the ConfigMap
refresh only upserts cache entries, which the statements quantify over):
sort the cache values by start time descending and take `limit`. -/
def getRecentPipelines (m : PipelineMonitor) (limit : Nat) : List Pipeline :=
  ((cacheValues m).mergeSort startDescLe).take limit

/-- `PipelineMonitor.getActivePipelines` (pure projection). -/
def getActivePipelines (m : PipelineMonitor) : List Pipeline :=
  ((cacheValues m).filter
    (fun p => p.status == PipelineStatus.Running || p.status == PipelineStatus.Pending)).mergeSort
    startDescLe

/-- `PipelineMetrics` from `src/models/Pipeline.ts` (`successRate` and
`averageDuration` are JS floats, modelled exactly as rationals;
`failureReasons` is a JS object, modelled as an insertion-ordered
association list). -/
structure PipelineMetrics where
  appName : String
  period : String
  totalPipelines : Nat
  successRate : ℚ
  averageDuration : ℚ
  failureReasons : List (String × Nat)
  deploymentFrequency : Nat
deriving DecidableEq, Repr

/-- `failureReasons[reason] = (failureReasons[reason] || 0) + 1` on a JS
object (insertion-ordered). -/
def histIncr (h : List (String × Nat)) (k : String) : List (String × Nat) :=
  if h.any (fun kv => kv.1 == k) then
    h.map (fun kv => if kv.1 == k then (kv.1, kv.2 + 1) else kv)
  else
    h ++ [(k, 1)]

/-- `PipelineMonitor.getMetrics`: aggregates over the recent-1000 set filtered
by app name.  `filter(p => p.duration)` uses JS truthiness, so pipelines with
duration `0` (or unset) are excluded from the average. -/
def getMetrics (m : PipelineMonitor) (appName : String) (period : String) :
    PipelineMetrics :=
  let allPipelines := getRecentPipelines m 1000
  let appPipelines := allPipelines.filter (fun p => p.appName == appName)
  let totalPipelines := appPipelines.length
  let successfulPipelines :=
    (appPipelines.filter (fun p => p.status == PipelineStatus.Succeeded)).length
  let successRate : ℚ :=
    if totalPipelines > 0 then
      ((successfulPipelines : ℚ) / (totalPipelines : ℚ)) * 100
    else 0
  let durations :=
    (appPipelines.filter (fun p => jsTruthyInt p.duration)).map
      (fun p => jsNumOr p.duration 0)
  let averageDuration : ℚ :=
    if durations.length > 0 then
      ((durations.foldl (· + ·) 0 : Int) : ℚ) / (durations.length : ℚ)
    else 0
  let failureReasons :=
    (appPipelines.filter (fun p => p.status == PipelineStatus.Failed)).foldl
      (fun acc p =>
        match p.events.find? (fun e => e.status == some EventStatus.Failed) with
        | some failedEvent =>
          histIncr acc (jsStrOr failedEvent.error (eventTypeStr failedEvent.eventType))
        | none => acc)
      []
  { appName := appName
    period := period
    totalPipelines := totalPipelines
    successRate := successRate
    averageDuration := averageDuration
    failureReasons := failureReasons
    deploymentFrequency := totalPipelines }

/-- `AnalysisItem` from `src/models/Pipeline.ts` (`impact` is one of the
string literals `high`/`medium`/`low`). -/
structure AnalysisItem where
  stage : String
  duration : Int
  issue : String
  impact : String
deriving DecidableEq, Repr

/-- `PipelineAnalysis` from `src/models/Pipeline.ts`. -/
structure PipelineAnalysis where
  pipelineId : String
  summary : String
  bottlenecks : List AnalysisItem
  failures : List AnalysisItem
  suggestions : List String
  performanceScore : Int
deriving DecidableEq, Repr

/-- JS object assignment `o[k] = v`: in-place overwrite of an existing
(string) key, append otherwise; `Object.entries` iterates in this order. -/
def objSet (o : List (String × Int)) (k : String) (v : Int) : List (String × Int) :=
  if o.any (fun kv => kv.1 == k) then
    o.map (fun kv => if kv.1 == k then (k, v) else kv)
  else
    o ++ [(k, v)]

/-- The `eventDurations` object of `analyzePipeline`: for each consecutive
event pair, the gap keyed by the *earlier* event's type — so a later gap
following the same event type overwrites the earlier one. -/
def eventDurations (events : List PipelineEvent) : List (String × Int) :=
  (events.zip events.tail).foldl
    (fun o pr => objSet o (eventTypeStr pr.1.eventType) (pr.2.timestamp - pr.1.timestamp))
    []

/-- JS `Math.round(d / 1000)` for an integer millisecond count `d`
(round half toward positive infinity). -/
def jsRoundMsToSec (d : Int) : Int := Int.fdiv (2 * d + 1000) 2000

/-- All consecutive-event gaps of a pipeline.  This definition follows the
spec's words ("derives inter-event gaps", "any gap exceeding 2 minutes") and
exists to compare the spec's per-gap reading against the code's per-event-type
`eventDurations` object. -/
def interEventGaps (events : List PipelineEvent) : List Int :=
  (events.zip events.tail).map (fun pr => pr.2.timestamp - pr.1.timestamp)

/-- The body of `PipelineMonitor.analyzePipeline` once the pipeline has been
fetched: bottleneck entries from `eventDurations` values above 2 minutes
(impact `high` above 5 minutes), one failure entry per failed-status event,
score 100 − 10·bottlenecks − 20·failures (no floor), suggestions, and a
status-keyed summary. -/
def analyzePipelineCore (pipelineId : String) (pipeline : Pipeline) :
    PipelineAnalysis :=
  let durObj := eventDurations pipeline.events
  let bottlenecks :=
    (durObj.filter (fun kv => kv.2 > 120000)).map
      (fun kv : String × Int =>
        let secs := jsRoundMsToSec kv.2
        { stage := kv.1
          duration := kv.2
          issue := s!"Stage took {secs}s"
          impact := if kv.2 > 300000 then "high" else "medium" : AnalysisItem })
  let failures :=
    (pipeline.events.filter (fun e => e.status == some EventStatus.Failed)).map
      (fun e =>
        { stage := eventTypeStr e.eventType
          duration := jsNumOr e.duration 0
          issue := jsStrOr e.error "Unknown error"
          impact := "high" : AnalysisItem })
  let performanceScore : Int :=
    100 - 10 * (bottlenecks.length : Int) - 20 * (failures.length : Int)
  let suggestions :=
    (if bottlenecks.length > 0 then
      ["Consider optimizing slow stages or parallelizing work"] else []) ++
    (if failures.length > 0 then
      ["Address failing stages to improve reliability"] else [])
  let summary :=
    if pipeline.status = PipelineStatus.Succeeded then
      let secs := jsRoundMsToSec (jsNumOr pipeline.duration 0)
      s!"Pipeline completed successfully in {secs}s"
    else if pipeline.status = PipelineStatus.Failed then
      let failStage := jsStrOr ((failures.head?).map (fun f => f.stage)) "unknown stage"
      s!"Pipeline failed at {failStage}"
    else
      "Pipeline is still running"
  { pipelineId := pipelineId
    summary := summary
    bottlenecks := bottlenecks
    failures := failures
    suggestions := suggestions
    performanceScore := performanceScore }

/-- `PipelineMonitor.analyzePipeline`: `null` when the pipeline is unknown. -/
def analyzePipeline (m : PipelineMonitor) (pipelineId : String) :
    Option PipelineAnalysis :=
  (cacheGet m.pipelineCache pipelineId).map (analyzePipelineCore pipelineId)

/-! ## Transport normalization (`src/api/ControlHubAPI.ts`) -/

/-- A raw pipeline payload as the backend returns it: both the newer
(`startedAt`/`completedAt`) and legacy (`startTime`/`endTime`) timestamp
fields may be present, the status token has arbitrary case, and `duration`
may or may not be supplied. -/
structure RawPipeline where
  id : String
  appName : String
  startedAt : Option Int := none
  startTime : Option Int := none
  completedAt : Option Int := none
  endTime : Option Int := none
  status : Option String := none
  events : Option (List PipelineEvent) := none
  triggerType : Option String := none
  triggerUser : Option String := none
  branch : Option String := none
  commitSha : Option String := none
  commitMessage : Option String := none
  duration : Option Int := none
deriving DecidableEq, Repr

/-- The pipeline shape `listPipelines`/`getPipeline` actually produce at
runtime: the timestamp fields may be absent when the payload carried
neither name. -/
structure APIPipeline where
  id : String
  appName : String
  startTime : Option Int
  endTime : Option Int
  status : String
  events : List PipelineEvent
  trigger : PipelineTrigger
  duration : Option Int
deriving DecidableEq, Repr

/-- `p.status?.toLowerCase() || 'pending'`. -/
def normStatusToken (s : Option String) : String :=
  match s with
  | none => "pending"
  | some str => if str.toLower = "" then "pending" else str.toLower

/-- The per-payload mapping shared by `ControlHubAPI.listPipelines` and
`ControlHubAPI.getPipeline`: prefer `startedAt`/`completedAt`, fall back to
`startTime`/`endTime` (JS `||`, so a `0` also falls through), lower-case the
status token defaulting to `pending`, default the events array, and pass
`duration` through unchanged. -/
def mapApiPipeline (p : RawPipeline) : APIPipeline :=
  { id := p.id
    appName := p.appName
    startTime := jsOrInt p.startedAt p.startTime
    endTime := jsOrInt p.completedAt p.endTime
    status := normStatusToken p.status
    events := p.events.getD []
    trigger :=
      { type := jsStrOr p.triggerType "manual"
        user := p.triggerUser
        branch := p.branch
        commit := p.commitSha
        message := p.commitMessage }
    duration := p.duration }

/-- The body of `ControlHubAPI.listPipelines` on a 200 response. -/
def listPipelinesMap (pipelines : List RawPipeline) : List APIPipeline :=
  pipelines.map mapApiPipeline

/-! ## `ControlHubAPI.testConnection`

The health probe either yields the response's `data.status` string or fails
(network error or non-2xx status — axios' default `validateStatus` rejects
those).  The fallback `/pipelines` probe runs with
`validateStatus: s => s === 200 || s === 401`; it is modelled by the HTTP
status of the response when one arrives (`none` = network failure), and a
response whose status the validator rejects throws, landing in the
`return false` catch — the same result the model's status test yields. -/
def testConnection (health : Option String) (fallbackStatus : Option Nat) : Bool :=
  match health with
  | some st => st == "healthy"
  | none =>
    match fallbackStatus with
    | some code => code == 200 || code == 401
    | none => false

/-! ## Reconnecting streams -/

/-- `EventStream` (`src/api/EventStream.ts`): the reconnect-relevant state.
`reconnectTimerPending` models `reconnectTimeout !== null` — a scheduled
reconnect that will invoke `connect()` when it fires. -/
structure EventStream where
  wsOpen : Bool
  reconnectTimerPending : Bool
  reconnectAttempts : Nat
  maxReconnectAttempts : Nat := 10
deriving DecidableEq, Repr

/-- `EventStream.scheduleReconnect`: give up (with a user-facing error) at the
attempt cap, otherwise clear any pending timer, bump the counter and schedule
a new reconnect timer. -/
def EventStream.scheduleReconnect (s : EventStream) : EventStream :=
  if s.maxReconnectAttempts ≤ s.reconnectAttempts then s
  else { s with reconnectAttempts := s.reconnectAttempts + 1
                reconnectTimerPending := true }

/-- The `EventStream` socket close handler: emits `disconnected` and then
calls `scheduleReconnect()` unconditionally — there is no liveness/disposal
guard, so it also runs for a close event of a socket the stream already
disconnected. -/
def EventStream.onSocketClose (s : EventStream) : EventStream :=
  s.scheduleReconnect

/-- `EventStream.disconnect`: clear the pending reconnect timer and close and
drop the socket. -/
def EventStream.disconnect (s : EventStream) : EventStream :=
  { s with reconnectTimerPending := false, wsOpen := false }

/-- `WebSocketManager` (`src/api/WebSocketManager.ts`), global-stream slice:
`isActive` is the disposal guard consulted by its close handlers. -/
structure WebSocketManager where
  isActive : Bool := true
  globalWsOpen : Bool := false
  globalTimerPending : Bool := false
deriving DecidableEq, Repr

/-- The global-stream close handler: drop the socket; schedule a 5s reconnect
only while `isActive` and the close was not a normal (code 1000) closure. -/
def WebSocketManager.onGlobalClose (w : WebSocketManager) (code : Nat) :
    WebSocketManager :=
  let w := { w with globalWsOpen := false }
  if w.isActive && code != 1000 then { w with globalTimerPending := true }
  else w

/-- `WebSocketManager.disconnect`: set `isActive := false`, clear every
reconnect timer and close every socket with code 1000. -/
def WebSocketManager.disconnect (w : WebSocketManager) : WebSocketManager :=
  { w with isActive := false, globalTimerPending := false, globalWsOpen := false }

/-! ## Concrete states used by the closed statements -/

/-- The spec scenario's snapshot `{id:"p1", startTime:1000, stages:[]}`. -/
def cmP1 : ConfigMapData := { pipelineId := "p1", appName := "app", startTime := 1000 }

/-- The monitor after ingesting the `p1` snapshot. -/
def monitorP1 : PipelineMonitor := updatePipelineFromConfigMap {} cmP1

/-- The spec scenario's event `{pipelineId:"p1", eventType:"BUILD_FAILED",
timestamp:1050}` — note it carries no `status` field. -/
def evBuildFailed1050 : PipelineEvent :=
  { id := "e1", pipelineId := "p1", timestamp := 1050, eventType := .BUILD_FAILED }

/-- The monitor after the scenario's snapshot-then-event ingestion. -/
def monitorScenario : PipelineMonitor := addEvent monitorP1 evBuildFailed1050

/-- A terminal event that also carries a failure status. -/
def evFailedStatus1050 : PipelineEvent :=
  { id := "e1", pipelineId := "p1", timestamp := 1050, eventType := .BUILD_FAILED
    status := some .Failed }

/-- A second terminal event, after the first already set `endTime`. -/
def evTimeout2000 : PipelineEvent :=
  { id := "e2", pipelineId := "p1", timestamp := 2000, eventType := .DEPLOY_TIMEOUT }

/-- A non-failure, non-terminal event arriving after a failure. -/
def evSync3000 : PipelineEvent :=
  { id := "e3", pipelineId := "p1", timestamp := 3000, eventType := .ARGOCD_SYNC
    status := some .Success }

/-- A non-failure success-marker event arriving after a failure. -/
def evDeployComplete4000 : PipelineEvent :=
  { id := "e4", pipelineId := "p1", timestamp := 4000, eventType := .DEPLOY_COMPLETE
    status := some .Success }

/-- Monitor with `p1` failed (status and terminal fields set by
`evFailedStatus1050`). -/
def monitorFailed : PipelineMonitor := addEvent monitorP1 evFailedStatus1050

/-- `monitorFailed` after a second terminal event. -/
def monitorTwoTerminals : PipelineMonitor := addEvent monitorFailed evTimeout2000

/-- A pipeline whose event sequence has two gaps above two minutes that share
the same predecessor event type with a later small gap (so the
`eventDurations` object keeps only the small one for that type). -/
def pipelineOverwrite : Pipeline :=
  { id := "p9"
    appName := "app"
    startTime := 0
    status := .Running
    events :=
      [ { id := "g1", pipelineId := "p9", timestamp := 0, eventType := .BUILD_START }
      , { id := "g2", pipelineId := "p9", timestamp := 200000, eventType := .ARGOCD_SYNC }
      , { id := "g3", pipelineId := "p9", timestamp := 400000, eventType := .BUILD_START }
      , { id := "g4", pipelineId := "p9", timestamp := 410000, eventType := .DEPLOY_START } ]
    trigger := { type := "manual" } }

/-- A pipeline with six failed-status events at one timestamp: no gaps, six
failure entries, score 100 − 120 = −20. -/
def pipelineSixFailures : Pipeline :=
  { id := "pn"
    appName := "app"
    startTime := 0
    status := .Failed
    events :=
      (List.range 6).map (fun i =>
        { id := toString i, pipelineId := "pn", timestamp := 0,
          eventType := .BUILD_FAILED, status := some .Failed })
    trigger := { type := "manual" } }

/-- Two cached pipelines for the query/metrics statements: `a` (started 500,
succeeded, duration 100) and `b` (started 700, failed, no duration). -/
def pipelineA : Pipeline :=
  { id := "a", appName := "app", startTime := 500, status := .Succeeded
    events := [], trigger := { type := "manual" }, duration := some 100 }

def pipelineB : Pipeline :=
  { id := "b", appName := "app", startTime := 700, status := .Failed
    events := [ { id := "f1", pipelineId := "b", timestamp := 710,
                  eventType := .SYNC_FAILED, status := some .Failed } ]
    trigger := { type := "manual" } }

def monitorAB : PipelineMonitor := { pipelineCache := [("a", pipelineA), ("b", pipelineB)] }

/-- A monitor with an empty cache. -/
def monitorEmpty : PipelineMonitor := {}

/-- A raw payload carrying both timestamps but no explicit duration. -/
def rawBoth : RawPipeline :=
  { id := "r1", appName := "app", startedAt := some 100, completedAt := some 150 }

/-- A raw payload with a newer start field, a legacy-only end field, an
upper-case status token and an explicit duration. -/
def rawMixed : RawPipeline :=
  { id := "r2", appName := "app", startedAt := some 100, startTime := some 1
    endTime := some 150, status := some "RUNNING", duration := some 7 }

/-- The C1 invariant: the cached pipeline at `pid` exists, is `Failed`, and
one of its events carries a failure status. -/
def failureLocked (m : PipelineMonitor) (pid : String) : Prop :=
  ∃ p, cacheGet m.pipelineCache pid = some p ∧ p.status = .Failed ∧
    ∃ e ∈ p.events, e.status = some EventStatus.Failed

/-! ## Cache lemmas -/

theorem find?_map_keyfix (c : Cache) (k pid : String) (p : Pipeline) (h : k ≠ pid) :
    (c.map (fun kv => if kv.1 == k then (k, p) else kv)).find? (fun kv => kv.1 == pid)
      = c.find? (fun kv => kv.1 == pid) := by
  induction c with
  | nil => rfl
  | cons hd tl ih =>
    simp only [List.map_cons]
    by_cases hk : hd.1 = k
    · have e1 : ¬ ((if hd.1 == k then (k, p) else hd).1 == pid) = true := by
        simp [hk, h]
      have e2 : ¬ (hd.1 == pid) = true := by simp [hk, h]
      rw [List.find?_cons_of_neg (p := fun kv : String × Pipeline => kv.1 == pid) _ e1,
          List.find?_cons_of_neg (p := fun kv : String × Pipeline => kv.1 == pid) _ e2]
      exact ih
    · have hd_eq : (if hd.1 == k then (k, p) else hd) = hd := by simp [hk]
      rw [hd_eq]
      by_cases hpid : (hd.1 == pid) = true
      · rw [List.find?_cons_of_pos (p := fun kv : String × Pipeline => kv.1 == pid) _ hpid,
            List.find?_cons_of_pos (p := fun kv : String × Pipeline => kv.1 == pid) _ hpid]
      · rw [List.find?_cons_of_neg (p := fun kv : String × Pipeline => kv.1 == pid) _ hpid,
            List.find?_cons_of_neg (p := fun kv : String × Pipeline => kv.1 == pid) _ hpid]
        exact ih

theorem find?_map_keyhit (c : Cache) (k : String) (p : Pipeline)
    (hany : c.any (fun kv => kv.1 == k) = true) :
    (c.map (fun kv => if kv.1 == k then (k, p) else kv)).find? (fun kv => kv.1 == k)
      = some (k, p) := by
  induction c with
  | nil => simp at hany
  | cons hd tl ih =>
    simp only [List.map_cons]
    by_cases hk : hd.1 = k
    · have e1 : ((if hd.1 == k then (k, p) else hd).1 == k) = true := by simp [hk]
      rw [List.find?_cons_of_pos (p := fun kv : String × Pipeline => kv.1 == k) _ e1]
      simp [hk]
    · have e2 : ¬ (hd.1 == k) = true := by simp [hk]
      have hd_eq : (if hd.1 == k then (k, p) else hd) = hd := by simp [hk]
      rw [hd_eq, List.find?_cons_of_neg (p := fun kv : String × Pipeline => kv.1 == k) _ e2]
      apply ih
      rcases List.any_eq_true.1 hany with ⟨kv, hkv, hbeq⟩
      rcases List.mem_cons.1 hkv with rfl | hmem
      · exact absurd hbeq e2
      · exact List.any_eq_true.2 ⟨kv, hmem, hbeq⟩

theorem find?_append_single (c : Cache) (k : String) (p : Pipeline)
    (hany : ¬ c.any (fun kv => kv.1 == k) = true) :
    (c ++ [(k, p)]).find? (fun kv => kv.1 == k) = some (k, p) := by
  rw [List.find?_append]
  have hnone : c.find? (fun kv => kv.1 == k) = none := by
    rw [List.find?_eq_none]
    intro kv hkv hbeq
    exact hany (List.any_eq_true.2 ⟨kv, hkv, hbeq⟩)
  have e1 : (((k, p) : String × Pipeline).1 == k) = true := by simp
  rw [hnone, List.find?_cons_of_pos (p := fun kv : String × Pipeline => kv.1 == k) _ e1]
  rfl

theorem cacheGet_cacheSet_ne (c : Cache) (k pid : String) (p : Pipeline)
    (h : k ≠ pid) : cacheGet (cacheSet c k p) pid = cacheGet c pid := by
  unfold cacheSet
  by_cases hany : c.any (fun kv => kv.1 == k) = true
  · rw [if_pos hany]
    unfold cacheGet
    rw [find?_map_keyfix c k pid p h]
  · rw [if_neg hany]
    unfold cacheGet
    rw [List.find?_append]
    have e1 : ¬ (((k, p) : String × Pipeline).1 == pid) = true := by simp [h]
    rw [List.find?_cons_of_neg (p := fun kv : String × Pipeline => kv.1 == pid) _ e1]
    simp

theorem cacheGet_cacheSet_self (c : Cache) (k : String) (p : Pipeline) :
    cacheGet (cacheSet c k p) k = some p := by
  unfold cacheSet
  by_cases hany : c.any (fun kv => kv.1 == k) = true
  · rw [if_pos hany]
    unfold cacheGet
    rw [find?_map_keyhit c k p hany]
    rfl
  · rw [if_neg hany]
    unfold cacheGet
    rw [find?_append_single c k p hany]
    rfl

theorem cacheIdsOk_cacheSet (c : Cache) (k : String) (p : Pipeline)
    (hc : cacheIdsOk c) (hp : p.id = k) : cacheIdsOk (cacheSet c k p) := by
  unfold cacheSet
  by_cases hany : c.any (fun kv => kv.1 == k) = true
  · rw [if_pos hany]
    intro kv hkv
    rcases List.mem_map.1 hkv with ⟨kv0, hkv0, hmap⟩
    by_cases hk : (kv0.1 == k) = true
    · rw [if_pos hk] at hmap
      rw [← hmap]
      exact hp
    · rw [if_neg hk] at hmap
      rw [← hmap]
      exact hc kv0 hkv0
  · rw [if_neg hany]
    intro kv hkv
    rcases List.mem_append.1 hkv with hmem | hmem
    · exact hc kv hmem
    · rw [List.mem_singleton.1 hmem]
      exact hp

theorem cacheGet_id (c : Cache) (pid : String) (p : Pipeline)
    (hc : cacheIdsOk c) (h : cacheGet c pid = some p) : p.id = pid := by
  unfold cacheGet at h
  cases hfind : c.find? (fun kv => kv.1 == pid) with
  | none => rw [hfind] at h; simp at h
  | some kv =>
    rw [hfind] at h
    simp only [Option.map] at h
    injection h with h2
    have hmem : kv ∈ c := List.mem_of_find?_eq_some hfind
    have hpred := List.find?_some hfind
    have hkey : kv.1 = pid := by simpa using hpred
    rw [← h2, hc kv hmem, hkey]

/-! ## Status and ingestion lemmas -/

theorem calculatePipelineStatus_of_failure (evs : List PipelineEvent)
    (h : ∃ e ∈ evs, e.status = some EventStatus.Failed) :
    calculatePipelineStatus evs = .Failed := by
  obtain ⟨e, he, hst⟩ := h
  have hany : (evs.any fun e2 => e2.status == some EventStatus.Failed) = true :=
    List.any_eq_true.2 ⟨e, he, by simp [hst]⟩
  unfold calculatePipelineStatus
  cases hlast : evs.getLast? with
  | none =>
    rw [List.getLast?_eq_none_iff] at hlast
    subst hlast
    simp at he
  | some lastEvent => simp [hany]

theorem cacheIdsOk_addEvent (m : PipelineMonitor) (ev : PipelineEvent)
    (h : cacheIdsOk m.pipelineCache) : cacheIdsOk (addEvent m ev).pipelineCache := by
  unfold addEvent
  cases hget : cacheGet m.pipelineCache ev.pipelineId with
  | none => exact h
  | some pipeline => exact cacheIdsOk_cacheSet _ _ _ h rfl

theorem cacheIdsOk_updateFromConfigMap (m : PipelineMonitor) (data : ConfigMapData)
    (h : cacheIdsOk m.pipelineCache) :
    cacheIdsOk (updatePipelineFromConfigMap m data).pipelineCache := by
  unfold updatePipelineFromConfigMap
  cases hlast : data.events.getLast? with
  | none => exact cacheIdsOk_cacheSet _ _ _ h rfl
  | some lastEvent =>
    by_cases ht : isTerminalEvent lastEvent.eventType = true
    · simp only [hlast, ht, if_pos]
      exact cacheIdsOk_cacheSet _ _ _ h rfl
    · simp only [hlast, if_neg ht]
      exact cacheIdsOk_cacheSet _ _ _ h rfl

theorem addEvent_eq_none (m : PipelineMonitor) (ev : PipelineEvent)
    (h : cacheGet m.pipelineCache ev.pipelineId = none) : addEvent m ev = m := by
  unfold addEvent
  rw [h]

theorem addEvent_eq_some (m : PipelineMonitor) (ev : PipelineEvent) (q : Pipeline)
    (h : cacheGet m.pipelineCache ev.pipelineId = some q) :
    addEvent m ev =
      { m with pipelineCache :=
          cacheSet m.pipelineCache (applyEvent q ev).id (applyEvent q ev) } := by
  unfold addEvent
  rw [h]

theorem addEvent_preserves_failureLocked (m : PipelineMonitor) (pid : String)
    (ev : PipelineEvent) (hids : cacheIdsOk m.pipelineCache)
    (h : failureLocked m pid) : failureLocked (addEvent m ev) pid := by
  obtain ⟨p, hget, hstat, e, he, hst⟩ := h
  cases hgev : cacheGet m.pipelineCache ev.pipelineId with
  | none =>
    rw [addEvent_eq_none m ev hgev]
    exact ⟨p, hget, hstat, e, he, hst⟩
  | some q =>
    rw [addEvent_eq_some m ev q hgev]
    have hqid : q.id = ev.pipelineId := cacheGet_id _ _ _ hids hgev
    have happ_id : (applyEvent q ev).id = q.id := rfl
    by_cases hpe : ev.pipelineId = pid
    · have hqp : q = p := by
        rw [hpe] at hgev
        rw [hget] at hgev
        exact (Option.some.inj hgev).symm
      subst hqp
      refine ⟨applyEvent q ev, ?_, ?_, ?_⟩
      · show cacheGet (cacheSet m.pipelineCache (applyEvent q ev).id (applyEvent q ev)) pid
          = some (applyEvent q ev)
        rw [happ_id, hqid, hpe]
        exact cacheGet_cacheSet_self _ _ _
      · exact calculatePipelineStatus_of_failure _ ⟨e, List.mem_append_left _ he, hst⟩
      · exact ⟨e, List.mem_append_left _ he, hst⟩
    · refine ⟨p, ?_, hstat, e, he, hst⟩
      show cacheGet (cacheSet m.pipelineCache (applyEvent q ev).id (applyEvent q ev)) pid
        = some p
      rw [happ_id, hqid]
      rw [cacheGet_cacheSet_ne _ _ _ _ hpe]
      exact hget

/-! ## Sort-comparator lemmas (`getRecentPipelines`) -/

theorem startDescLe_trans : ∀ (a b c : Pipeline),
    startDescLe a b → startDescLe b c → startDescLe a c := by
  intro a b c hab hbc
  simp only [startDescLe, decide_eq_true_eq] at *
  exact le_trans hbc hab

theorem startDescLe_total : ∀ (a b : Pipeline),
    startDescLe a b || startDescLe b a := by
  intro a b
  simp only [startDescLe, Bool.or_eq_true, decide_eq_true_eq]
  exact le_total b.startTime a.startTime

/-- Stability of the modelled sort: sorting never reorders pipelines that
share a start time (the comparator returns 0 on them). -/
theorem mergeSort_filter_startTime (l : List Pipeline) (t : Int) :
    (l.mergeSort startDescLe).filter (fun p => p.startTime == t)
      = l.filter (fun p => p.startTime == t) := by
  have hall : ∀ x ∈ l.filter (fun p => p.startTime == t),
      (fun p : Pipeline => p.startTime == t) x = true :=
    fun x hx => (List.mem_filter.1 hx).2
  have hpair : (l.filter (fun p => p.startTime == t)).Pairwise
      (fun a b => startDescLe a b) := by
    apply List.pairwise_of_forall_mem_list
    intro a ha b hb
    have ha2 : a.startTime = t := by simpa using (List.mem_filter.1 ha).2
    have hb2 : b.startTime = t := by simpa using (List.mem_filter.1 hb).2
    simp [startDescLe, ha2, hb2]
  have hsub : List.Sublist (l.filter (fun p => p.startTime == t))
      (l.mergeSort startDescLe) :=
    List.sublist_mergeSort startDescLe_trans startDescLe_total hpair
      (List.filter_sublist l)
  have h1 : List.Sublist (l.filter (fun p => p.startTime == t))
      ((l.mergeSort startDescLe).filter (fun p => p.startTime == t)) := by
    have h2 := hsub.filter (fun p => p.startTime == t)
    rwa [List.filter_eq_self.2 hall] at h2
  have hperm : List.Perm ((l.mergeSort startDescLe).filter (fun p => p.startTime == t))
      (l.filter (fun p => p.startTime == t)) :=
    (List.mergeSort_perm l startDescLe).filter _
  exact (h1.eq_of_length hperm.length_eq.symm).symm

theorem nodup_ids_of_wf (c : Cache) (h1 : cacheKeysNodup c) (h2 : cacheIdsOk c) :
    ((c.map (·.2)).map (fun p => p.id)).Nodup := by
  have hmaps : (c.map (·.2)).map (fun p => p.id) = c.map (fun kv => kv.1) := by
    rw [List.map_map]
    exact List.map_congr_left h2
  rw [hmaps]
  exact h1

theorem calculatePipelineStatus_ne_cancelled (evs : List PipelineEvent) :
    calculatePipelineStatus evs ≠ PipelineStatus.Cancelled := by
  unfold calculatePipelineStatus
  cases evs.getLast? with
  | none => simp
  | some lastEvent =>
    by_cases h1 : (evs.any fun e => e.status == some EventStatus.Failed) = true
    · simp [h1]
    · by_cases h2 : (lastEvent.eventType == EventType.DEPLOY_COMPLETE) = true
      · simp [h1, h2]
      · simp [h1, h2]

/-! ## Claims -/

/-- C1: for every cached pipeline and every sequence of ingested events, once
an event carrying a failure status has been ingested for that pipeline (the
cached entry is `Failed` and holds a failed-status event), every subsequent
ingestion of non-failure events leaves the pipeline's computed status equal to
`Failed`: failure dominates regardless of later events. -/
theorem C1_failure_dominates (m : PipelineMonitor) (pid : String)
    (evs : List PipelineEvent)
    (hids : cacheIdsOk m.pipelineCache)
    (hlocked : failureLocked m pid)
    (hnonfail : ∀ e ∈ evs, e.status ≠ some EventStatus.Failed) :
    ∃ p, cacheGet ((evs.foldl addEvent m).pipelineCache) pid = some p ∧
      p.status = PipelineStatus.Failed := by
  induction evs generalizing m with
  | nil =>
    obtain ⟨p, h1, h2, _⟩ := hlocked
    exact ⟨p, h1, h2⟩
  | cons ev rest ih =>
    simp only [List.foldl_cons]
    exact ih (addEvent m ev) (cacheIdsOk_addEvent m ev hids)
      (addEvent_preserves_failureLocked m pid ev hids hlocked)
      (fun e he => hnonfail e (List.mem_cons_of_mem _ he))

/-- C1 witness: a pipeline failed at 1050 stays `Failed` through a subsequent
sync event and a deploy-complete event. -/
theorem C1_failure_dominates_witness :
    ∃ p, cacheGet (([evSync3000, evDeployComplete4000].foldl addEvent
        monitorFailed).pipelineCache) "p1" = some p ∧
      p.status = PipelineStatus.Failed :=
  C1_failure_dominates monitorFailed "p1" [evSync3000, evDeployComplete4000]
    (by decide)
    ⟨_, rfl, by decide, evFailedStatus1050, by decide, rfl⟩
    (by decide)

/-- C2 counterexample: `BUILD_FAILED` at 1050 sets `endTime := 1050`, but a
second terminal event (`DEPLOY_TIMEOUT` at 2000) overwrites it to 2000 — the
already-set `endTime` does not survive further terminal events. -/
theorem C2_counterexample :
    (cacheGet monitorFailed.pipelineCache "p1").map (fun p => p.endTime)
        = some (some 1050)
    ∧ (cacheGet monitorTwoTerminals.pipelineCache "p1").map (fun p => p.endTime)
        = some (some 2000)
    ∧ (some (some (2000 : Int)) : Option (Option Int)) ≠ some (some 1050) := by
  decide

/-- C2 (amended): ingesting a terminal event always overwrites the cached
pipeline's `endTime` with that event's timestamp and its `duration` with the
difference to `startTime` — `endTime` equals the most recent terminal event's
timestamp rather than being set at most once. -/
theorem C2_amended_terminal_overwrites (m : PipelineMonitor) (ev : PipelineEvent)
    (p : Pipeline) (hids : cacheIdsOk m.pipelineCache)
    (hget : cacheGet m.pipelineCache ev.pipelineId = some p)
    (hterm : isTerminalEvent ev.eventType = true) :
    ∃ p2, cacheGet ((addEvent m ev).pipelineCache) ev.pipelineId = some p2 ∧
      p2.endTime = some ev.timestamp ∧
      p2.duration = some (ev.timestamp - p.startTime) := by
  rw [addEvent_eq_some m ev p hget]
  have hid : p.id = ev.pipelineId := cacheGet_id _ _ _ hids hget
  have happ : (applyEvent p ev).id = p.id := rfl
  refine ⟨applyEvent p ev, ?_, ?_, ?_⟩
  · show cacheGet (cacheSet m.pipelineCache (applyEvent p ev).id (applyEvent p ev))
        ev.pipelineId = some (applyEvent p ev)
    rw [happ, hid]
    exact cacheGet_cacheSet_self _ _ _
  · show (if isTerminalEvent ev.eventType then some ev.timestamp else p.endTime)
        = some ev.timestamp
    rw [if_pos hterm]
  · show (if isTerminalEvent ev.eventType then some (ev.timestamp - p.startTime)
        else p.duration) = some (ev.timestamp - p.startTime)
    rw [if_pos hterm]

/-- C2 witness: the second terminal event at 2000 yields `endTime = 2000`. -/
theorem C2_amended_witness :
    ∃ p2, cacheGet ((addEvent monitorFailed evTimeout2000).pipelineCache) "p1"
        = some p2 ∧ p2.endTime = some 2000 := by
  obtain ⟨p2, h1, h2, h3⟩ :=
    C2_amended_terminal_overwrites monitorFailed evTimeout2000 _
      (by decide) rfl (by decide)
  exact ⟨p2, h1, h2⟩

/-- C3: `EventStream`'s close handler schedules a reconnect unconditionally,
so a stale close event arriving after `disconnect()` does schedule (and will
execute) a reconnect — the claimed double-dispose safety fails for
`EventStream`, while `WebSocketManager`'s `isActive` guard provides it for
every state and close code. -/
theorem C3_stale_close_after_disconnect :
    ((EventStream.disconnect
        { wsOpen := true, reconnectTimerPending := false,
          reconnectAttempts := 0 }).onSocketClose).reconnectTimerPending = true
    ∧ (∀ (w : WebSocketManager) (code : Nat),
        ((WebSocketManager.disconnect w).onGlobalClose code).globalTimerPending
          = false) := by
  constructor
  · rfl
  · intro w code
    simp [WebSocketManager.disconnect, WebSocketManager.onGlobalClose]

/-- C4 counterexample: the scenario's event carries no failure *status* (only
the `BUILD_FAILED` event type), and status computation keys on `event.status`,
so the resulting pipeline is not `Failed`. -/
theorem C4_counterexample :
    (cacheGet monitorScenario.pipelineCache "p1").map (fun p => p.status)
      ≠ some PipelineStatus.Failed := by
  decide

/-- C4 (amended): ingesting the snapshot `{id:"p1", startTime:1000}` and then
the event `{pipelineId:"p1", eventType:"BUILD_FAILED", timestamp:1050}` yields
status `Running` (the event carries no failure status field), while
`BUILD_FAILED` is terminal, so `endTime = 1050` and `duration = 50`. -/
theorem C4_amended_scenario :
    (cacheGet monitorScenario.pipelineCache "p1").map (fun p => p.status)
        = some PipelineStatus.Running
    ∧ (cacheGet monitorScenario.pipelineCache "p1").map (fun p => p.endTime)
        = some (some 1050)
    ∧ (cacheGet monitorScenario.pipelineCache "p1").map (fun p => p.duration)
        = some (some 50) := by
  decide

/-- C5 counterexample: a payload with `startedAt = 100`, `completedAt = 150`
and no explicit duration normalizes with both timestamps present but with
`duration` left absent — the transport layer does not compute end minus
start. -/
theorem C5_counterexample :
    (mapApiPipeline rawBoth).startTime = some 100
    ∧ (mapApiPipeline rawBoth).endTime = some 150
    ∧ (mapApiPipeline rawBoth).duration ≠ some 50 := by
  decide

/-- C5 (amended): normalization prefers the newer field name
(`startedAt`/`completedAt`) with JS-falsy fallback to the legacy one
(`startTime`/`endTime`), lower-cases the status token (defaulting to
`pending`), and passes the payload's `duration` through unchanged — it never
computes a duration from end minus start. -/
theorem C5_amended_normalization (p : RawPipeline) :
    (∀ v : Int, p.startedAt = some v → v ≠ 0 →
      (mapApiPipeline p).startTime = some v)
    ∧ (p.startedAt = none → (mapApiPipeline p).startTime = p.startTime)
    ∧ (∀ v : Int, p.completedAt = some v → v ≠ 0 →
      (mapApiPipeline p).endTime = some v)
    ∧ (p.completedAt = none → (mapApiPipeline p).endTime = p.endTime)
    ∧ (∀ s : String, p.status = some s → ¬ s.toLower = "" →
      (mapApiPipeline p).status = s.toLower)
    ∧ (p.status = none → (mapApiPipeline p).status = "pending")
    ∧ (mapApiPipeline p).duration = p.duration := by
  refine ⟨?_, ?_, ?_, ?_, ?_, ?_, rfl⟩
  · intro v hv hnz
    simp [mapApiPipeline, jsOrInt, hv, hnz]
  · intro hv
    simp [mapApiPipeline, jsOrInt, hv]
  · intro v hv hnz
    simp [mapApiPipeline, jsOrInt, hv, hnz]
  · intro hv
    simp [mapApiPipeline, jsOrInt, hv]
  · intro s hs hne
    simp [mapApiPipeline, normStatusToken, hs, hne]
  · intro hs
    simp [mapApiPipeline, normStatusToken, hs]

/-- C5 witness: the mixed payload maps to `startTime = 100` (newer name wins),
`endTime = 150` (legacy fallback), duration passed through.  (`toLower` of a
concrete string does not kernel-reduce, so the lower-casing conjunct is
exercised through the `none → "pending"` branch on `rawBoth`.) -/
theorem C5_amended_witness :
    (mapApiPipeline rawMixed).startTime = some 100
    ∧ (mapApiPipeline rawMixed).endTime = some 150
    ∧ (mapApiPipeline rawMixed).duration = some 7
    ∧ (mapApiPipeline rawBoth).status = "pending" := by
  have h := C5_amended_normalization rawMixed
  have h2 := C5_amended_normalization rawBoth
  refine ⟨h.1 100 rfl (by decide), ?_, ?_, ?_⟩
  · exact (h.2.2.2.1 rfl).trans (by decide)
  · exact (h.2.2.2.2.2.2).trans (by decide)
  · exact h2.2.2.2.2.2.1 rfl

/-- C6: for every limit `n` and every well-formed cache, `getRecentPipelines n`
returns at most `n` pipelines, sorted by `startTime` descending, with ties in
cache (insertion) order — the stable-sort guarantee, stated as: restricted to
any fixed start time, the output is a sublist of the cache values — and with
pairwise-distinct pipeline IDs. -/
theorem C6_getRecentPipelines_spec (m : PipelineMonitor) (n : Nat)
    (h1 : cacheKeysNodup m.pipelineCache) (h2 : cacheIdsOk m.pipelineCache) :
    (getRecentPipelines m n).length ≤ n
    ∧ (getRecentPipelines m n).Pairwise (fun a b => b.startTime ≤ a.startTime)
    ∧ (∀ t : Int, List.Sublist
        ((getRecentPipelines m n).filter (fun p => p.startTime == t))
        ((cacheValues m).filter (fun p => p.startTime == t)))
    ∧ ((getRecentPipelines m n).map (fun p => p.id)).Nodup := by
  refine ⟨?_, ?_, ?_, ?_⟩
  · unfold getRecentPipelines
    rw [List.length_take]
    exact Nat.min_le_left _ _
  · unfold getRecentPipelines
    have hs := List.sorted_mergeSort startDescLe_trans startDescLe_total
      (cacheValues m)
    have hsub := List.take_sublist n ((cacheValues m).mergeSort startDescLe)
    exact (List.Pairwise.sublist hsub hs).imp
      (fun h => by simpa [startDescLe] using h)
  · intro t
    unfold getRecentPipelines
    have heq := mergeSort_filter_startTime (cacheValues m) t
    have hsub := (List.take_sublist n
      ((cacheValues m).mergeSort startDescLe)).filter (fun p => p.startTime == t)
    rwa [heq] at hsub
  · unfold getRecentPipelines
    have hnodup : ((cacheValues m).map (fun p => p.id)).Nodup :=
      nodup_ids_of_wf m.pipelineCache h1 h2
    have hperm : List.Perm
        (((cacheValues m).mergeSort startDescLe).map (fun p => p.id))
        ((cacheValues m).map (fun p => p.id)) :=
      (List.mergeSort_perm _ _).map _
    have hnodup2 : (((cacheValues m).mergeSort startDescLe).map
        (fun p => p.id)).Nodup := hperm.nodup_iff.2 hnodup
    have hsub : List.Sublist
        ((((cacheValues m).mergeSort startDescLe).take n).map (fun p => p.id))
        (((cacheValues m).mergeSort startDescLe).map (fun p => p.id)) :=
      (List.take_sublist n _).map _
    exact List.Nodup.sublist hsub hnodup2

/-- C6 witness at a two-pipeline cache with limit 1. -/
theorem C6_witness :
    (getRecentPipelines monitorAB 1).length ≤ 1
    ∧ ((getRecentPipelines monitorAB 1).map (fun p => p.id)).Nodup := by
  have h := C6_getRecentPipelines_spec monitorAB 1 (by decide) (by decide)
  exact ⟨h.1, h.2.2.2⟩

/-- C7: for every app name, `getMetrics` yields `successRate = 0` and
`averageDuration = 0` when no recent pipeline matches the app (never a
division error — the rates are exact rationals), otherwise
`successRate = succeeded/total×100`; the duration average draws only from
pipelines whose `duration` is present (JS-truthy), is `0` when that set is
empty, and is otherwise the mean of those durations. -/
theorem C7_getMetrics_safe (m : PipelineMonitor) (appName period : String) :
    (((getRecentPipelines m 1000).filter (fun p => p.appName == appName)) = [] →
      (getMetrics m appName period).successRate = 0
      ∧ (getMetrics m appName period).averageDuration = 0)
    ∧ (((getRecentPipelines m 1000).filter (fun p => p.appName == appName)) ≠ [] →
      (getMetrics m appName period).successRate =
        ((((getRecentPipelines m 1000).filter (fun p => p.appName == appName)).filter
            (fun p => p.status == PipelineStatus.Succeeded)).length : ℚ)
          / ((((getRecentPipelines m 1000).filter (fun p => p.appName == appName)).length : ℚ))
          * 100)
    ∧ (∀ p ∈ ((getRecentPipelines m 1000).filter (fun p => p.appName == appName)).filter
          (fun p => jsTruthyInt p.duration), p.duration ≠ none)
    ∧ ((((getRecentPipelines m 1000).filter (fun p => p.appName == appName)).filter
          (fun p => jsTruthyInt p.duration)) = [] →
      (getMetrics m appName period).averageDuration = 0)
    ∧ ((((getRecentPipelines m 1000).filter (fun p => p.appName == appName)).filter
          (fun p => jsTruthyInt p.duration)) ≠ [] →
      (getMetrics m appName period).averageDuration =
        (((((((getRecentPipelines m 1000).filter (fun p => p.appName == appName)).filter
            (fun p => jsTruthyInt p.duration)).map (fun p => jsNumOr p.duration 0)).foldl
            (· + ·) 0 : Int) : ℚ))
          / (((((getRecentPipelines m 1000).filter (fun p => p.appName == appName)).filter
            (fun p => jsTruthyInt p.duration)).map (fun p => jsNumOr p.duration 0)).length : ℚ)) := by
  refine ⟨?_, ?_, ?_, ?_, ?_⟩
  · intro h
    constructor
    · simp only [getMetrics]
      rw [h]
      simp
    · simp only [getMetrics]
      rw [h]
      simp
  · intro h
    simp only [getMetrics]
    rw [if_pos (List.length_pos.2 h)]
  · intro p hp hnone
    have h2 := (List.mem_filter.1 hp).2
    rw [hnone] at h2
    simp [jsTruthyInt] at h2
  · intro h
    simp only [getMetrics]
    rw [h]
    simp
  · intro h
    have hmap : (((getRecentPipelines m 1000).filter
        (fun p => p.appName == appName)).filter
          (fun p => jsTruthyInt p.duration)).map (fun p => jsNumOr p.duration 0)
        ≠ [] := by
      intro hh
      exact h (List.map_eq_nil_iff.1 hh)
    simp only [getMetrics]
    rw [if_pos (List.length_pos.2 hmap)]

/-- C7 witness: an app with zero matching pipelines yields exactly 0 for both
the success rate and the average duration. -/
theorem C7_witness :
    (getMetrics monitorEmpty "ghost" "7d").successRate = 0
    ∧ (getMetrics monitorEmpty "ghost" "7d").averageDuration = 0 := by
  have h := C7_getMetrics_safe monitorEmpty "ghost" "7d"
  exact h.1 (by simp [getRecentPipelines, cacheValues, monitorEmpty,
    List.mergeSort_nil])

/-- C8: `testConnection` returns `true` when the lightweight health probe
fails and the fallback data-path probe receives an HTTP 401 response: the
backend is reachable though unauthorized. -/
theorem C8_testConnection_401_reachable :
    testConnection none (some 401) = true := rfl

/-- C9 counterexample: a pipeline with two >2-minute gaps whose predecessor
events share an event type (with a later small gap overwriting the first) has
two inter-event gaps above the threshold but only one flagged bottleneck, and
a performance score of 90, not 100 − 10·2: `analyzePipeline` does not flag
*every* excessive gap. -/
theorem C9_counterexample :
    ((interEventGaps pipelineOverwrite.events).filter
        (fun g => decide (g > 120000))).length = 2
    ∧ (analyzePipelineCore "p9" pipelineOverwrite).bottlenecks.length = 1
    ∧ (analyzePipelineCore "p9" pipelineOverwrite).performanceScore = 90 := by
  decide

/-- C9 (amended): bottlenecks are drawn from the per-predecessor-event-type
gap object (later gaps overwrite earlier ones for the same type), one entry
per retained gap above 2 minutes, with impact `high` exactly above 5 minutes;
one failure entry per failed-status event; the score is 100 − 10 per
bottleneck − 20 per failure with no floor (it goes negative, e.g. −20 for six
failures). -/
theorem C9_amended_analysis (pipelineId : String) (pipeline : Pipeline) :
    ((analyzePipelineCore pipelineId pipeline).performanceScore =
      100 - 10 * ((analyzePipelineCore pipelineId pipeline).bottlenecks.length : Int)
        - 20 * ((analyzePipelineCore pipelineId pipeline).failures.length : Int))
    ∧ ((analyzePipelineCore pipelineId pipeline).failures.length =
      (pipeline.events.filter (fun e => e.status == some EventStatus.Failed)).length)
    ∧ ((analyzePipelineCore pipelineId pipeline).bottlenecks.length =
      ((eventDurations pipeline.events).filter (fun kv => kv.2 > 120000)).length)
    ∧ (∀ b ∈ (analyzePipelineCore pipelineId pipeline).bottlenecks,
      b.duration > 120000
      ∧ b.impact = (if b.duration > 300000 then "high" else "medium"))
    ∧ (analyzePipelineCore "pn" pipelineSixFailures).performanceScore < 0 := by
  refine ⟨rfl, ?_, ?_, ?_, by decide⟩
  · simp [analyzePipelineCore]
  · simp [analyzePipelineCore]
  · intro b hb
    simp only [analyzePipelineCore, List.mem_map] at hb
    obtain ⟨kv, hkv, rfl⟩ := hb
    have hgt : kv.2 > 120000 := by
      have := (List.mem_filter.1 hkv).2
      simpa using this
    exact ⟨hgt, rfl⟩

/-- C9 witness: the retained bottleneck of `pipelineOverwrite` exceeds the
2-minute threshold with impact `medium` (not above 5 minutes). -/
theorem C9_amended_witness :
    ∃ b ∈ (analyzePipelineCore "p9" pipelineOverwrite).bottlenecks,
      b.duration > 120000
      ∧ b.impact = (if b.duration > 300000 then "high" else "medium") := by
  have h := (C9_amended_analysis "p9" pipelineOverwrite).2.2.2.1
  refine ⟨{ stage := "ARGOCD_SYNC", duration := 200000,
            issue := "Stage took 200s", impact := "medium" }, ?_, ?_⟩
  · decide
  · exact h _ (by decide)

/-- C10: the event-based status computation is total with range
{Pending, Running, Failed, Succeeded}: event ingestion either leaves a cache
entry unchanged or stores a pipeline whose status is not `Cancelled`. -/
theorem C10_no_cancelled_via_events (evs : List PipelineEvent)
    (m : PipelineMonitor) (ev : PipelineEvent) (pid : String) :
    (calculatePipelineStatus evs = PipelineStatus.Pending
     ∨ calculatePipelineStatus evs = PipelineStatus.Running
     ∨ calculatePipelineStatus evs = PipelineStatus.Failed
     ∨ calculatePipelineStatus evs = PipelineStatus.Succeeded)
    ∧ (cacheGet (addEvent m ev).pipelineCache pid = cacheGet m.pipelineCache pid
       ∨ ∃ p2, cacheGet (addEvent m ev).pipelineCache pid = some p2
         ∧ p2.status ≠ PipelineStatus.Cancelled) := by
  constructor
  · cases h : calculatePipelineStatus evs with
    | Pending => exact Or.inl rfl
    | Running => exact Or.inr (Or.inl rfl)
    | Failed => exact Or.inr (Or.inr (Or.inl rfl))
    | Succeeded => exact Or.inr (Or.inr (Or.inr rfl))
    | Cancelled => exact absurd h (calculatePipelineStatus_ne_cancelled evs)
  · cases hget : cacheGet m.pipelineCache ev.pipelineId with
    | none =>
      left
      rw [addEvent_eq_none m ev hget]
    | some q =>
      rw [addEvent_eq_some m ev q hget]
      by_cases hpe : (applyEvent q ev).id = pid
      · right
        refine ⟨applyEvent q ev, ?_, ?_⟩
        · show cacheGet (cacheSet m.pipelineCache (applyEvent q ev).id
              (applyEvent q ev)) pid = some (applyEvent q ev)
          rw [← hpe]
          exact cacheGet_cacheSet_self _ _ _
        · show calculatePipelineStatus (q.events ++ [ev]) ≠ PipelineStatus.Cancelled
          exact calculatePipelineStatus_ne_cancelled _
      · left
        show cacheGet (cacheSet m.pipelineCache (applyEvent q ev).id
            (applyEvent q ev)) pid = cacheGet m.pipelineCache pid
        exact cacheGet_cacheSet_ne _ _ _ _ hpe
